import Mathlib

/-!
Verification of the Rhasspy dialogue manager session core
(`rhasspydialogue_hermes/__init__.py`).

The embedding models the session store (`self.session`,
`self.session_queue`), the session state machine
(`start_session` / `end_session` / `handle_*`), the say-and-wait
coordinator, and the dispatch-level session-id filtering
(`_check_sessionId`).  Each operation is embedded as a pure function
`inputs → DialogueState → List OutMsg × DialogueState`, where the
output list is the fully drained sequence of messages yielded by the
corresponding Python (async) generator, in yield order.
-/

namespace RhasspyDialogue

/-- `DialogueSessionTerminationReason` from rhasspyhermes. -/
inductive TerminationReason
  | nominal
  | abortedByUser
  | intentNotRecognized
  | timeout
  deriving DecidableEq, Repr

/-- The polymorphic start-session initializer: `DialogueNotification`
(`type == NOTIFICATION`, carries optional `text`) or `DialogueAction`
(`text`, `canBeEnqueued`, `intentFilter`, `sendIntentNotRecognized`). -/
inductive DialogueInit
  | notification (text : Option String)
  | action (text : Option String) (canBeEnqueued : Bool)
      (intentFilter : Option (List String)) (sendIntentNotRecognized : Bool)
  deriving DecidableEq, Repr

/-- `DialogueStartSession` request payload. -/
structure DialogueStartSession where
  siteId : String := "default"
  customData : String := ""
  init : DialogueInit
  deriving DecidableEq, Repr

/-- `SessionInfo` (lines 35-46 of the source): information for an active or
queued dialogue session.  Defaults mirror the `attr.ib` defaults. -/
structure SessionInfo where
  sessionId : String
  siteId : String
  start_session : DialogueStartSession
  customData : String := ""
  intentFilter : Option (List String) := none
  sendIntentNotRecognized : Bool := false
  deriving DecidableEq, Repr

/-- `DialogueContinueSession` request payload.  `customData` and `text` are
nullable in the hermes protocol. -/
structure DialogueContinueSession where
  sessionId : String := ""
  customData : Option String := none
  text : Option String := none
  intentFilter : Option (List String) := none
  sendIntentNotRecognized : Bool := false
  deriving DecidableEq, Repr

/-- `DialogueEndSession` request payload. -/
structure DialogueEndSession where
  sessionId : String := ""
  text : Option String := none
  deriving DecidableEq, Repr

/-- `AsrTextCaptured` event payload (the fields the manager reads). -/
structure AsrTextCaptured where
  text : String := ""
  siteId : String := "default"
  sessionId : String := ""
  deriving DecidableEq, Repr

/-- `NluIntentNotRecognized` event payload (the fields the manager reads). -/
structure NluIntentNotRecognized where
  input : String := ""
  siteId : String := "default"
  sessionId : String := ""
  deriving DecidableEq, Repr

/-- Outbound messages yielded by the manager's generators. -/
inductive OutMsg
  | ttsSay (siteId sessionId text : String)
  | sessionQueued (sessionId siteId customData : String)
  | sessionStarted (siteId sessionId customData : String)
  | sessionEnded (sessionId siteId customData : String) (reason : TerminationReason)
  | asrStartListening (siteId sessionId : String)
  | asrStopListening (siteId sessionId : String)
  | nluQuery (input : String) (intentFilter : Option (List String)) (sessionId : String)
  | dialogueIntentNotRecognized (sessionId customData siteId input : String)
  deriving DecidableEq, Repr

/-- The session store: `self.session` and `self.session_queue` (deque with
its front at the list head; `append` pushes to the back, `appendleft` to the
front, `popleft` pops the head). -/
structure DialogueState where
  session : Option SessionInfo
  session_queue : List SessionInfo
  deriving DecidableEq, Repr

/-- Initial store: no active session, empty queue (lines 70-71). -/
def initState : DialogueState := ⟨none, []⟩

/-- Python truthiness of an optional string (`if notification.text:` and
similar guards): `None` and the empty string are falsy. -/
def truthy : Option String → Bool
  | none => false
  | some s => s ≠ ""

/-- `say_and_wait` (lines 515-532): asserts an active session, yields one
`TtsSay` carrying the active session's id, then waits for the say-finished
event (the wait itself yields nothing; its timeout handling is modelled by
`say_and_wait_outcome` below). -/
def say_and_wait (text : String) (siteId : String) (sess : Option SessionInfo) :
    List OutMsg :=
  match sess with
  | some s => [OutMsg.ttsSay siteId s.sessionId text]
  | none => []

/-- The Notification branch of `start_session` (lines 131-153 plus the tail
193-198), with the result of the inlined `end_session` promotion passed in
as `prom` (its output list and the store it leaves). -/
def start_notification (ns : SessionInfo) (siteId : String)
    (sess : Option SessionInfo) (ntext : Option String)
    (prom : List OutMsg × DialogueState) : List OutMsg × DialogueState :=
  -- lines 136-139: only adopt the new session when none is active
  let active := sess.getD ns
  -- lines 141-146: forward text to TTS (TtsSay carries the id of whatever
  -- session is active at this point)
  let ttsOut := if truthy ntext then
      say_and_wait (ntext.getD "") siteId (some active) else []
  -- lines 148-153 with end_session (258-285) inlined: emit SessionEnded for
  -- the active session, then the promotion output, then the tail (193-198)
  let ended := OutMsg.sessionEnded active.sessionId siteId active.customData
      TerminationReason.nominal
  (ttsOut ++ ended ::
    (prom.1 ++ [OutMsg.sessionStarted siteId ns.sessionId ns.customData]),
   ⟨some ns, prom.2.session_queue⟩)

/-- The Action branch of `start_session` (lines 154-198), non-recursive. -/
def start_action (ns : SessionInfo) (siteId : String) (sess : Option SessionInfo)
    (queue : List SessionInfo) (atext : Option String) (canBeEnqueued : Bool)
    (aintentFilter : Option (List String)) (asendNR : Bool) :
    List OutMsg × DialogueState :=
  -- lines 160-162: mutate the new session in place before branching
  let ns' : SessionInfo := { ns with
      customData := ns.start_session.customData,
      intentFilter := aintentFilter,
      sendIntentNotRecognized := asendNR }
  match sess with
  | some _ =>
      if canBeEnqueued then
        -- lines 166-173: queue it; then the tail (193-198) still runs
        ([OutMsg.sessionQueued ns'.sessionId siteId ns'.customData,
          OutMsg.sessionStarted siteId ns'.sessionId ns'.customData],
         ⟨some ns', queue ++ [ns']⟩)
      else
        -- lines 174-176: "drop" it; the tail (193-198) still runs
        ([OutMsg.sessionStarted siteId ns'.sessionId ns'.customData],
         ⟨some ns', queue⟩)
  | none =>
      -- lines 177-191: fresh start, optional TTS, then ASR listening
      let ttsOut := if truthy atext then
          say_and_wait (atext.getD "") siteId (some ns') else []
      (ttsOut ++ [OutMsg.asrStartListening siteId ns'.sessionId,
                  OutMsg.sessionStarted siteId ns'.sessionId ns'.customData],
       ⟨some ns', queue⟩)

/-- Core of `start_session` (lines 110-198), parameterised by the two store
fields.  In the source, `start_session` and `end_session` are mutually
recursive: the notification branch (lines 131-153) calls
`end_session(NOMINAL)`, and `end_session` (lines 258-285) pops the queue
head and calls `start_session` on it with the default `siteId="default"`.
Here that `end_session` call is inlined into the notification branch (emit
`SessionEnded` for the current active session, clear it, then promote the
queue head), which makes the recursion structural on the pending queue.

Note the unconditional tail (lines 193-198): `self.session = new_session`
and `yield DialogueSessionStarted(...)` run on EVERY path of the Python
function, including the queued and dropped action paths and after a
notification session was ended. -/
def start_core (ns : SessionInfo) (siteId : String) (sess : Option SessionInfo) :
    List SessionInfo → List OutMsg × DialogueState
  | [] =>
      match ns.start_session.init with
      | .notification ntext =>
          -- empty queue: nothing to promote
          start_notification ns siteId sess ntext ([], ⟨none, []⟩)
      | .action atext canQ filt sendNR =>
          start_action ns siteId sess [] atext canQ filt sendNR
  | h :: t =>
      match ns.start_session.init with
      | .notification ntext =>
          -- promotion: start_session(queue.popleft()) with siteId "default"
          start_notification ns siteId sess ntext (start_core h "default" none t)
      | .action atext canQ filt sendNR =>
          start_action ns siteId sess (h :: t) atext canQ filt sendNR

/-- `start_session` (lines 110-198) on the full store. -/
def start_session (ns : SessionInfo) (siteId : String) (st : DialogueState) :
    List OutMsg × DialogueState :=
  start_core ns siteId st.session st.session_queue

/-- `end_session` (lines 258-285): emit `SessionEnded` for the active
session with the given reason, clear it, then promote the pending queue's
head (if any) via `start_session` with the default `siteId="default"`.
The `none` branch is the `assert self.session` failure (unreachable from
the call sites, which all check for an active session first). -/
def end_session (reason : TerminationReason) (siteId : String) (st : DialogueState) :
    List OutMsg × DialogueState :=
  match st.session with
  | none => ([], st)
  | some s =>
      let ended := OutMsg.sessionEnded s.sessionId siteId s.customData reason
      match st.session_queue with
      | [] => ([ended], ⟨none, []⟩)
      | h :: t =>
          let r := start_core h "default" none t
          (ended :: r.1, r.2)

/-- `handle_start` (lines 83-108): allocate a fresh session id (the uuid is a
parameter of the model), build a `SessionInfo` with default fields, and run
`start_session` with the request's `siteId`. -/
def handle_start (sessionId : String) (req : DialogueStartSession)
    (st : DialogueState) : List OutMsg × DialogueState :=
  start_session ⟨sessionId, req.siteId, req, "", none, false⟩ req.siteId st

/-- The field updates of `handle_continue` (lines 207-218):
`customData` via Python `or` (a `None` or empty-string request value keeps
the old one), `intentFilter` overwritten only when currently non-null,
`sendIntentNotRecognized` overwritten unconditionally. -/
def continue_update (c : DialogueContinueSession) (s : SessionInfo) : SessionInfo :=
  let s1 := { s with customData :=
      match c.customData with
      | none => s.customData
      | some cd => if cd = "" then s.customData else cd }
  let s2 := if s1.intentFilter.isSome then { s1 with intentFilter := c.intentFilter }
            else s1
  { s2 with sendIntentNotRecognized := c.sendIntentNotRecognized }

/-- `handle_continue` (lines 200-234): requires an active session (the
failed `assert` is caught, yielding nothing and changing nothing); updates
its fields, optionally speaks, then emits `AsrStartListening`.  The
request's `sessionId` is never consulted. -/
def handle_continue (c : DialogueContinueSession) (st : DialogueState) :
    List OutMsg × DialogueState :=
  match st.session with
  | none => ([], st)
  | some s =>
      let s3 := continue_update c s
      let ttsOut := if truthy c.text then
          say_and_wait (c.text.getD "") s3.siteId (some s3) else []
      (ttsOut ++ [OutMsg.asrStartListening s3.siteId s3.sessionId],
       ⟨some s3, st.session_queue⟩)

/-- `handle_end` (lines 236-256): requires an active session (failed assert
caught); runs `end_session` with reason `NOMINAL` and the active session's
`siteId`.  The request payload is never consulted. -/
def handle_end (_e : DialogueEndSession) (st : DialogueState) :
    List OutMsg × DialogueState :=
  match st.session with
  | none => ([], st)
  | some s => end_session TerminationReason.nominal s.siteId st

/-- `handle_text_captured` (lines 287-307): requires an active session;
emits `AsrStopListening` then an `NluQuery` with the session's filter. -/
def handle_text_captured (tc : AsrTextCaptured) (st : DialogueState) :
    List OutMsg × DialogueState :=
  match st.session with
  | none => ([], st)
  | some s =>
      ([OutMsg.asrStopListening tc.siteId s.sessionId,
        OutMsg.nluQuery tc.text s.intentFilter s.sessionId], st)

/-- `handle_not_recognized` (lines 317-350): requires an active session;
optionally notifies the requester, then ends the session with reason
`INTENT_NOT_RECOGNIZED`. -/
def handle_not_recognized (nr : NluIntentNotRecognized) (st : DialogueState) :
    List OutMsg × DialogueState :=
  match st.session with
  | none => ([], st)
  | some s =>
      let notif := if s.sendIntentNotRecognized then
          [OutMsg.dialogueIntentNotRecognized s.sessionId s.customData nr.siteId
            nr.input] else []
      let r := end_session TerminationReason.intentNotRecognized nr.siteId st
      (notif ++ r.1, r.2)

/-- The wake session id `f"{detected.siteId}-{wakeword_id}-{uuid4()}"`
(line 367). -/
def wakeSessionId (siteId wakewordId uuid : String) : String :=
  siteId ++ "-" ++ wakewordId ++ "-" ++ uuid

/-- The wake-triggered session (lines 367-376): an Action request with
`canBeEnqueued=False` and the wakeword id as `customData`. -/
def wakeSession (wakewordId siteId uuid : String) : SessionInfo :=
  ⟨wakeSessionId siteId wakewordId uuid, siteId,
   ⟨siteId, wakewordId, DialogueInit.action none false none false⟩,
   "", none, false⟩

/-- `handle_wake` (lines 352-393): if a session is active, push the wake
session to the FRONT of the queue and abort the active session (which
promotes the wake session); otherwise start it directly (with the default
`siteId="default"`, line 390). -/
def handle_wake (wakewordId : String) (detectedSiteId : String) (uuid : String)
    (st : DialogueState) : List OutMsg × DialogueState :=
  let ns := wakeSession wakewordId detectedSiteId uuid
  match st.session with
  | some _ =>
      end_session TerminationReason.abortedByUser detectedSiteId
        ⟨st.session, ns :: st.session_queue⟩
  | none => start_session ns "default" st

/-- `_check_sessionId` (lines 543-549): true iff there is an active session
and the payload's session id equals its id. -/
def check_sessionId (payloadSessionId : String) (st : DialogueState) : Bool :=
  match st.session with
  | some s => payloadSessionId == s.sessionId
  | none => false

/-- The inbound events routed by `on_message` (lines 416-493) that concern
the claims (site filtering is orthogonal and accepts everything when no
allow-list is configured, the default). -/
inductive InboundEvent
  | continueSession (c : DialogueContinueSession)
  | endSession (e : DialogueEndSession)
  | sayFinished (sessionId : String)
  | textCaptured (tc : AsrTextCaptured)
  | intentRecognized (sessionId : String)
  | intentNotRecognized (nr : NluIntentNotRecognized)
  deriving Repr

/-- The dispatch of `on_message`: continue/end requests are only site
filtered and go straight to their handlers; say-finished, text-captured and
recognition events are first filtered by `_check_sessionId`.  A matching
say-finished only sets the internal event flag (no store change, no
emission); a matching `NluIntent` is only logged by `handle_recognized`
(lines 309-315). -/
def dispatch (ev : InboundEvent) (st : DialogueState) : List OutMsg × DialogueState :=
  match ev with
  | .continueSession c => handle_continue c st
  | .endSession e => handle_end e st
  | .sayFinished sid => if check_sessionId sid st then ([], st) else ([], st)
  | .textCaptured tc =>
      if check_sessionId tc.sessionId st then handle_text_captured tc st
      else ([], st)
  | .intentRecognized sid =>
      if check_sessionId sid st then ([], st) else ([], st)
  | .intentNotRecognized nr =>
      if check_sessionId nr.sessionId st then handle_not_recognized nr st
      else ([], st)

/-- The discard conditions of the dispatch layer, per event kind: events
that must correlate to the current session (say-finished, text-captured,
recognition results) are discarded when `_check_sessionId` fails (no active
session, or a different session id); continue- and end-session requests are
only discarded when their handler's `assert self.session` fails, i.e. when
there is no active session at all — their session id is never checked. -/
def dispatchGuard (ev : InboundEvent) (st : DialogueState) : Prop :=
  match ev with
  | .continueSession _ => st.session = none
  | .endSession _ => st.session = none
  | .sayFinished sid => check_sessionId sid st = false
  | .textCaptured tc => check_sessionId tc.sessionId st = false
  | .intentRecognized sid => check_sessionId sid st = false
  | .intentNotRecognized nr => check_sessionId nr.sessionId st = false

/-- State-machine operations for iterating the manager (used for
reachability and invariant claims). -/
inductive Op
  | startOp (sessionId : String) (req : DialogueStartSession)
  | continueOp (c : DialogueContinueSession)
  | endOp (e : DialogueEndSession)
  | wakeOp (wakewordId siteId uuid : String)
  | textCapturedOp (tc : AsrTextCaptured)
  | notRecognizedOp (nr : NluIntentNotRecognized)
  deriving Repr

/-- The store after one operation. -/
def applyOp (op : Op) (st : DialogueState) : DialogueState :=
  match op with
  | .startOp sid req => (handle_start sid req st).2
  | .continueOp c => (handle_continue c st).2
  | .endOp e => (handle_end e st).2
  | .wakeOp w s u => (handle_wake w s u st).2
  | .textCapturedOp tc => (handle_text_captured tc st).2
  | .notRecognizedOp nr => (handle_not_recognized nr st).2

/-- The store after a sequence of operations. -/
def runOps (ops : List Op) (st : DialogueState) : DialogueState :=
  ops.foldl (fun s op => applyOp op s) st

/-- Default speech-finished wait timeout in seconds (line 79). -/
def say_finished_timeout : Nat := 10

/-- Outcome of the say-finished wait: the event arrived in time, or
`asyncio.wait_for` timed out. -/
inductive SpeechWait
  | finished
  | timedOut
  deriving DecidableEq, Repr

/-- `asyncio.wait_for(self.say_finished_event.wait(), timeout=...)`:
timing out raises `asyncio.TimeoutError`. -/
def wait_for_say_finished (outcome : SpeechWait) : Except Unit Unit :=
  match outcome with
  | .finished => Except.ok ()
  | .timedOut => Except.error ()

/-- `say_and_wait` (lines 515-532) with the wait outcome explicit.  The
second component records whether the generator ran to completion: the
`except asyncio.TimeoutError` clause catches the timeout and only logs it,
so both outcomes complete. -/
def say_and_wait_outcome (text siteId : String) (sess : Option SessionInfo)
    (outcome : SpeechWait) : List OutMsg × Bool :=
  match sess with
  | none => ([], false)
  | some s =>
      ([OutMsg.ttsSay siteId s.sessionId text],
       match wait_for_say_finished outcome with
       | .ok _ => true
       | .error _ => true)

/-- `handle_continue` with the say-and-wait outcome explicit: if the speak
step did not complete, the subsequent yields of the generator would be
skipped. -/
def handle_continue_wait (c : DialogueContinueSession) (outcome : SpeechWait)
    (st : DialogueState) : List OutMsg × DialogueState :=
  match st.session with
  | none => ([], st)
  | some s =>
      let s3 := continue_update c s
      if truthy c.text then
        let r := say_and_wait_outcome (c.text.getD "") s3.siteId (some s3) outcome
        if r.2 then
          (r.1 ++ [OutMsg.asrStartListening s3.siteId s3.sessionId],
           ⟨some s3, st.session_queue⟩)
        else (r.1, ⟨some s3, st.session_queue⟩)
      else ([OutMsg.asrStartListening s3.siteId s3.sessionId],
            ⟨some s3, st.session_queue⟩)

/-- The Notification branch of `start_session` with the say-and-wait outcome
explicit, mirroring `start_notification`.  `queue` is the pending queue at
entry (the store left behind if the wait step failed to complete) and `prom`
the promotion drain with its completion flag.  A failed step aborts the
enclosing generator, skipping all later yields. -/
def start_notification_wait (o : SpeechWait) (ns : SessionInfo) (siteId : String)
    (sess : Option SessionInfo) (ntext : Option String) (queue : List SessionInfo)
    (prom : List OutMsg × DialogueState × Bool) : List OutMsg × DialogueState × Bool :=
  let active := sess.getD ns
  let ended := OutMsg.sessionEnded active.sessionId siteId active.customData
      TerminationReason.nominal
  let rest : List OutMsg × DialogueState × Bool :=
    if prom.2.2 then
      (ended ::
        (prom.1 ++ [OutMsg.sessionStarted siteId ns.sessionId ns.customData]),
       ⟨some ns, prom.2.1.session_queue⟩, true)
    else
      (ended :: prom.1, prom.2.1, false)
  if truthy ntext then
    let r := say_and_wait_outcome (ntext.getD "") siteId (some active) o
    if r.2 then (r.1 ++ rest.1, rest.2.1, rest.2.2)
    else (r.1, ⟨some active, queue⟩, false)
  else rest

/-- The Action branch of `start_session` with the say-and-wait outcome
explicit, mirroring `start_action`. -/
def start_action_wait (o : SpeechWait) (ns : SessionInfo) (siteId : String)
    (sess : Option SessionInfo) (queue : List SessionInfo) (atext : Option String)
    (canBeEnqueued : Bool) (aintentFilter : Option (List String)) (asendNR : Bool) :
    List OutMsg × DialogueState × Bool :=
  let ns' : SessionInfo := { ns with
      customData := ns.start_session.customData,
      intentFilter := aintentFilter,
      sendIntentNotRecognized := asendNR }
  match sess with
  | some _ =>
      if canBeEnqueued then
        ([OutMsg.sessionQueued ns'.sessionId siteId ns'.customData,
          OutMsg.sessionStarted siteId ns'.sessionId ns'.customData],
         ⟨some ns', queue ++ [ns']⟩, true)
      else
        ([OutMsg.sessionStarted siteId ns'.sessionId ns'.customData],
         ⟨some ns', queue⟩, true)
  | none =>
      let tail := [OutMsg.asrStartListening siteId ns'.sessionId,
                   OutMsg.sessionStarted siteId ns'.sessionId ns'.customData]
      if truthy atext then
        let r := say_and_wait_outcome (atext.getD "") siteId (some ns') o
        if r.2 then (r.1 ++ tail, ⟨some ns', queue⟩, true)
        else (r.1, ⟨some ns', queue⟩, false)
      else (tail, ⟨some ns', queue⟩, true)

/-- `start_core` with the say-and-wait outcome explicit: every wait the
drain performs (the starting session's own, and those of recursively
promoted sessions) experiences the outcome `o`.  The Bool records whether
the drain ran to completion. -/
def start_core_wait (o : SpeechWait) (ns : SessionInfo) (siteId : String)
    (sess : Option SessionInfo) :
    List SessionInfo → List OutMsg × DialogueState × Bool
  | [] =>
      match ns.start_session.init with
      | .notification ntext =>
          start_notification_wait o ns siteId sess ntext [] ([], ⟨none, []⟩, true)
      | .action atext canQ filt sendNR =>
          start_action_wait o ns siteId sess [] atext canQ filt sendNR
  | h :: t =>
      match ns.start_session.init with
      | .notification ntext =>
          start_notification_wait o ns siteId sess ntext (h :: t)
            (start_core_wait o h "default" none t)
      | .action atext canQ filt sendNR =>
          start_action_wait o ns siteId sess (h :: t) atext canQ filt sendNR

/-- `handle_start` with the say-and-wait outcome explicit. -/
def handle_start_wait (o : SpeechWait) (sessionId : String)
    (req : DialogueStartSession) (st : DialogueState) :
    List OutMsg × DialogueState × Bool :=
  start_core_wait o ⟨sessionId, req.siteId, req, "", none, false⟩ req.siteId
    st.session st.session_queue

/-- The termination reasons of the `SessionEnded` messages of an emitted
sequence, in order. -/
def endedReasons (l : List OutMsg) : List TerminationReason :=
  l.filterMap (fun m => match m with
    | .sessionEnded _ _ _ r => some r
    | _ => none)

/-- Does an emitted sequence contain an `AsrStartListening` directive? -/
def hasStartListening (l : List OutMsg) : Bool :=
  l.any (fun m => match m with
    | .asrStartListening _ _ => true
    | _ => false)

/-- A session id is absent from the store: not the active session's id and
not the id of any queued session. -/
def absent (sid : String) (st : DialogueState) : Bool :=
  st.session.all (fun s => s.sessionId != sid) &&
  st.session_queue.all (fun s => s.sessionId != sid)

/-- An operation never introduces the given session id: its freshly
generated id (the uuid parameter of the model) differs from it. -/
def opFresh (sid : String) : Op → Bool
  | .startOp nsid _ => nsid != sid
  | .wakeOp w s u => wakeSessionId s w u != sid
  | _ => true

/-! Concrete fixtures used to evaluate the operations on small inputs. -/

/-- An Action start request with no text and no filter. -/
def actionReq (canQ : Bool) : DialogueStartSession :=
  ⟨"default", "", DialogueInit.action none canQ none false⟩

/-- A Notification start request with no text. -/
def notifReq : DialogueStartSession :=
  ⟨"default", "", DialogueInit.notification none⟩

/-- Store after starting one Action session `s1` from the initial store:
`s1` is active and the queue is empty. -/
def demoState1 : DialogueState :=
  runOps [Op.startOp "s1" (actionReq false)] initState

/-- Store after starting Action session `s1` and then Action session `s2`
with `canBeEnqueued=true`. -/
def demoState2 : DialogueState :=
  runOps [Op.startOp "s1" (actionReq false), Op.startOp "s2" (actionReq true)] initState

/-- An active session `a` at site `default` with `customData="x"` and no
intent filter. -/
def sessX : SessionInfo := ⟨"a", "default", actionReq false, "x", none, false⟩

/-- Store with `sessX` active and an empty queue. -/
def stX : DialogueState := ⟨some sessX, []⟩

/-- An active session like `sessX` but with intent filter `["i1"]`. -/
def sessF : SessionInfo := ⟨"a", "default", actionReq false, "x", some ["i1"], false⟩

/-- Store with `sessF` active and an empty queue. -/
def stF : DialogueState := ⟨some sessF, []⟩

/-!  General lemmas about the operations. -/

theorem continue_update_sessionId (c : DialogueContinueSession) (s : SessionInfo) :
    (continue_update c s).sessionId = s.sessionId := by
  cases hcd : c.customData <;> cases hf : s.intentFilter <;>
    simp [continue_update, hcd, hf]

theorem continue_update_siteId (c : DialogueContinueSession) (s : SessionInfo) :
    (continue_update c s).siteId = s.siteId := by
  cases hcd : c.customData <;> cases hf : s.intentFilter <;>
    simp [continue_update, hcd, hf]

theorem endedReasons_start_notification (ns : SessionInfo) (siteId : String)
    (sess : Option SessionInfo) (ntext : Option String)
    (prom : List OutMsg × DialogueState) :
    endedReasons (start_notification ns siteId sess ntext prom).1 =
      TerminationReason.nominal :: endedReasons prom.1 := by
  unfold start_notification
  by_cases ht : truthy ntext <;> simp [ht, say_and_wait, endedReasons]

theorem endedReasons_start_action (ns : SessionInfo) (siteId : String)
    (sess : Option SessionInfo) (queue : List SessionInfo) (atext : Option String)
    (canQ : Bool) (filt : Option (List String)) (sendNR : Bool) :
    endedReasons (start_action ns siteId sess queue atext canQ filt sendNR).1 = [] := by
  unfold start_action
  rcases sess with _ | s
  · by_cases ht : truthy atext <;> simp [ht, say_and_wait, endedReasons]
  · by_cases hq : canQ <;> simp [hq, endedReasons]

/-- Every `SessionEnded` a `start_session` drain emits — including those of
recursively promoted queued sessions — carries reason `NOMINAL`: the only
`end_session` call reachable from `start_session` is the notification
branch's, which passes `NOMINAL` (line 151). -/
theorem start_core_endedReasons_nominal (q : List SessionInfo) :
    ∀ ns siteId sess r, r ∈ endedReasons (start_core ns siteId sess q).1 →
      r = TerminationReason.nominal := by
  induction q with
  | nil =>
      intro ns siteId sess r hr
      cases hinit : ns.start_session.init with
      | notification ntext =>
          rw [start_core, hinit, endedReasons_start_notification] at hr
          simp [endedReasons] at hr
          exact hr
      | action atext canQ filt sendNR =>
          rw [start_core, hinit, endedReasons_start_action] at hr
          simp at hr
  | cons h t ih =>
      intro ns siteId sess r hr
      cases hinit : ns.start_session.init with
      | notification ntext =>
          rw [start_core, hinit, endedReasons_start_notification] at hr
          rcases List.mem_cons.mp hr with h1 | h1
          · exact h1
          · exact ih h "default" none r h1
      | action atext canQ filt sendNR =>
          rw [start_core, hinit, endedReasons_start_action] at hr
          simp at hr

theorem hasStartListening_start_notification (ns : SessionInfo) (siteId : String)
    (sess : Option SessionInfo) (ntext : Option String)
    (prom : List OutMsg × DialogueState) :
    hasStartListening (start_notification ns siteId sess ntext prom).1 =
      hasStartListening prom.1 := by
  unfold start_notification
  by_cases ht : truthy ntext <;> simp [ht, say_and_wait, hasStartListening]

/-- On an Action request, `start_core` is `start_action` whatever the
queue's shape is. -/
theorem start_core_action (ns : SessionInfo) (siteId : String)
    (sess : Option SessionInfo) (q : List SessionInfo) (atext : Option String)
    (canQ : Bool) (filt : Option (List String)) (sendNR : Bool)
    (hinit : ns.start_session.init = DialogueInit.action atext canQ filt sendNR) :
    start_core ns siteId sess q = start_action ns siteId sess q atext canQ filt sendNR := by
  cases q <;> rw [start_core, hinit]

/-- `start_session` never (re)introduces an absent session id, provided the
started session's own id differs from it. -/
theorem start_core_absent (sid : String) (q : List SessionInfo) :
    ∀ ns siteId sess, absent sid ⟨sess, q⟩ = true → ns.sessionId ≠ sid →
      absent sid (start_core ns siteId sess q).2 = true := by
  induction q with
  | nil =>
      intro ns siteId sess habs hns
      cases hinit : ns.start_session.init with
      | notification ntext =>
          rw [start_core, hinit]
          simp [start_notification, absent, hns]
      | action atext canQ filt sendNR =>
          rw [start_core, hinit]
          rcases sess with _ | s
          · simp [start_action, absent, hns]
          · by_cases hcq : canQ <;> simp [start_action, hcq, absent, hns]
  | cons h t ih =>
      intro ns siteId sess habs hns
      simp only [absent, List.all_cons, List.all_eq_true, Bool.and_eq_true,
        bne_iff_ne, ne_eq] at habs
      have hH : h.sessionId ≠ sid := habs.2.1
      have hT : absent sid ⟨none, t⟩ = true := by
        simp [absent, List.all_eq_true]
        exact habs.2.2
      cases hinit : ns.start_session.init with
      | notification ntext =>
          rw [start_core, hinit]
          have hrec := ih h "default" none hT hH
          simp only [absent, Bool.and_eq_true, List.all_eq_true, bne_iff_ne,
            ne_eq] at hrec
          simp [start_notification, absent, hns, List.all_eq_true]
          exact hrec.2
      | action atext canQ filt sendNR =>
          rw [start_core, hinit]
          rcases sess with _ | s
          · simp [start_action, absent, hns, List.all_eq_true]
            exact habs.2
          · by_cases hcq : canQ <;>
              simp [start_action, hcq, absent, hns, List.all_eq_true] <;>
              exact ⟨habs.2.1, habs.2.2⟩

/-- `end_session` never (re)introduces an absent session id. -/
theorem end_session_absent (sid : String) (reason : TerminationReason)
    (siteId : String) (st : DialogueState) (h : absent sid st = true) :
    absent sid (end_session reason siteId st).2 = true := by
  rcases st with ⟨sess, q⟩
  rcases sess with _ | s
  · simpa [end_session] using h
  · cases q with
    | nil => simp [end_session, absent]
    | cons hd tl =>
        simp only [absent, Option.all_some, List.all_cons, Bool.and_eq_true,
          List.all_eq_true, bne_iff_ne, ne_eq] at h
        have := start_core_absent sid tl hd "default" none
          (by simp [absent, List.all_eq_true]; exact h.2.2) h.2.1
        simpa [end_session] using this

/-- No operation (re)introduces an absent session id, provided the ids it
freshly generates differ from it. -/
theorem applyOp_absent (sid : String) (op : Op) (st : DialogueState)
    (h : absent sid st = true) (hf : opFresh sid op = true) :
    absent sid (applyOp op st) = true := by
  cases op with
  | startOp nsid req =>
      simp only [opFresh, bne_iff_ne, ne_eq] at hf
      exact start_core_absent sid st.session_queue _ req.siteId st.session
        (by rcases st with ⟨sess, q⟩; exact h) hf
  | continueOp c =>
      rcases st with ⟨sess, q⟩
      rcases sess with _ | s
      · simpa [applyOp, handle_continue] using h
      · simp only [absent, Option.all_some, Bool.and_eq_true, List.all_eq_true,
          bne_iff_ne, ne_eq] at h
        simp [applyOp, handle_continue, absent, continue_update_sessionId,
          List.all_eq_true]
        exact ⟨h.1, h.2⟩
  | endOp e =>
      rcases st with ⟨sess, q⟩
      rcases sess with _ | s
      · simpa [applyOp, handle_end] using h
      · simpa [applyOp, handle_end] using
          end_session_absent sid .nominal s.siteId ⟨some s, q⟩ h
  | wakeOp w siteId u =>
      simp only [opFresh, bne_iff_ne, ne_eq] at hf
      rcases st with ⟨sess, q⟩
      rcases sess with _ | s
      · simp only [applyOp, handle_wake]
        exact start_core_absent sid q _ "default" none h
          (by simpa [wakeSession] using hf)
      · simp only [applyOp, handle_wake]
        refine end_session_absent sid .abortedByUser siteId _ ?_
        simp only [absent, Option.all_some, List.all_cons, Bool.and_eq_true,
          List.all_eq_true, bne_iff_ne, ne_eq] at h ⊢
        exact ⟨h.1, by simpa [wakeSession] using hf, h.2⟩
  | textCapturedOp tc =>
      rcases st with ⟨sess, q⟩
      rcases sess with _ | s <;> simpa [applyOp, handle_text_captured] using h
  | notRecognizedOp nr =>
      rcases st with ⟨sess, q⟩
      rcases sess with _ | s
      · simpa [applyOp, handle_not_recognized] using h
      · simpa [applyOp, handle_not_recognized] using
          end_session_absent sid .intentNotRecognized nr.siteId ⟨some s, q⟩ h

/-- Absence of a session id is preserved by any operation sequence whose
freshly generated ids differ from it: an absent session can never become
active again. -/
theorem runOps_absent (sid : String) (ops : List Op) :
    ∀ st, absent sid st = true → (∀ op ∈ ops, opFresh sid op = true) →
      absent sid (runOps ops st) = true := by
  induction ops with
  | nil => intro st h _; simpa [runOps] using h
  | cons op rest ih =>
      intro st h hf
      have h1 := applyOp_absent sid op st h (hf op (List.mem_cons_self op rest))
      have h2 : runOps (op :: rest) st = runOps rest (applyOp op st) := by
        simp [runOps]
      rw [h2]
      exact ih (applyOp op st) h1 (fun o ho => hf o (List.mem_cons_of_mem op ho))

theorem start_notification_wait_eq (o : SpeechWait) (ns : SessionInfo)
    (siteId : String) (sess : Option SessionInfo) (ntext : Option String)
    (queue : List SessionInfo) (prom : List OutMsg × DialogueState) :
    start_notification_wait o ns siteId sess ntext queue (prom.1, prom.2, true) =
      ((start_notification ns siteId sess ntext prom).1,
       (start_notification ns siteId sess ntext prom).2, true) := by
  unfold start_notification_wait start_notification
  by_cases ht : truthy ntext <;> cases o <;>
    simp [ht, say_and_wait, say_and_wait_outcome, wait_for_say_finished]

theorem start_action_wait_eq (o : SpeechWait) (ns : SessionInfo) (siteId : String)
    (sess : Option SessionInfo) (queue : List SessionInfo) (atext : Option String)
    (canQ : Bool) (filt : Option (List String)) (sendNR : Bool) :
    start_action_wait o ns siteId sess queue atext canQ filt sendNR =
      ((start_action ns siteId sess queue atext canQ filt sendNR).1,
       (start_action ns siteId sess queue atext canQ filt sendNR).2, true) := by
  unfold start_action_wait start_action
  rcases sess with _ | s
  · by_cases ht : truthy atext <;> cases o <;>
      simp [ht, say_and_wait, say_and_wait_outcome, wait_for_say_finished]
  · by_cases hq : canQ <;> simp [hq]

/-- A `start_session` drain with the wait outcome explicit completes and is
identical to the plain drain, whatever the outcome: every say-and-wait
inside it catches its `TimeoutError`. -/
theorem start_core_wait_eq (o : SpeechWait) (q : List SessionInfo) :
    ∀ ns siteId sess, start_core_wait o ns siteId sess q =
      ((start_core ns siteId sess q).1, (start_core ns siteId sess q).2, true) := by
  induction q with
  | nil =>
      intro ns siteId sess
      cases hinit : ns.start_session.init with
      | notification ntext =>
          rw [start_core_wait, start_core, hinit]
          exact start_notification_wait_eq o ns siteId sess ntext [] ([], ⟨none, []⟩)
      | action atext canQ filt sendNR =>
          rw [start_core_wait, start_core, hinit]
          exact start_action_wait_eq o ns siteId sess [] atext canQ filt sendNR
  | cons h t ih =>
      intro ns siteId sess
      cases hinit : ns.start_session.init with
      | notification ntext =>
          rw [start_core_wait, start_core, hinit, ih h "default" none]
          exact start_notification_wait_eq o ns siteId sess ntext (h :: t)
            (start_core h "default" none t)
      | action atext canQ filt sendNR =>
          rw [start_core_wait, start_core, hinit]
          exact start_action_wait_eq o ns siteId sess (h :: t) atext canQ filt sendNR

/-- A StartSession of an Action request from an idle store still emits its
`AsrStartListening` directive whatever the wait outcome. -/
theorem handle_start_wait_asr (o : SpeechWait) (sessionId : String)
    (req : DialogueStartSession) (st : DialogueState) (atext : Option String)
    (canQ : Bool) (filt : Option (List String)) (sendNR : Bool)
    (hn : req.init = DialogueInit.action atext canQ filt sendNR)
    (hs : st.session = none) :
    OutMsg.asrStartListening req.siteId sessionId ∈
      (handle_start_wait o sessionId req st).1 := by
  unfold handle_start_wait
  rw [start_core_wait_eq o st.session_queue _ req.siteId st.session,
    start_core_action _ _ _ _ _ _ _ _ hn, hs]
  by_cases ht : truthy atext <;> simp [start_action, ht, say_and_wait]

/-!  Theorems settling the claims. -/

/-- C1: the claimed store invariant — that the active session is never one of
the queued sessions — FAILS on the code.  Starting Action session `s1` from
the initial store and then Action session `s2` with `canBeEnqueued=true`
appends `s2` to the pending queue (line 168) and then, through the
unconditional tail of `start_session` (line 193), also makes `s2` the active
session: the active session and the sole queued session coincide. -/
theorem c1_queued_session_is_active :
    demoState2.session.map (fun s => s.sessionId) = some "s2" ∧
    demoState2.session_queue.map (fun s => s.sessionId) = ["s2"] ∧
    demoState2.session = demoState2.session_queue.head? := by decide

/-- C2: the claimed drop semantics FAILS on the code.  With Action session
`s1` active and an empty queue, a StartSession of an Action request with
`canBeEnqueued=false` emits a `SessionStarted` for the new (supposedly
dropped) session `s2`, and replaces the active session `s1` with `s2` —
the unconditional tail of `start_session` (lines 193-198) runs even on the
drop path. -/
theorem c2_drop_emits_started_and_mutates :
    demoState1.session.map (fun s => s.sessionId) = some "s1" ∧
    (handle_start "s2" (actionReq false) demoState1).1 =
      [OutMsg.sessionStarted "default" "s2" ""] ∧
    (handle_start "s2" (actionReq false) demoState1).2.session.map
      (fun s => s.sessionId) = some "s2" := by decide

/-- C3: the claimed transience of notification sessions FAILS on the code.
Starting a Notification session `n1` from the idle initial store emits
`SessionEnded(NOMINAL)` for it, but the unconditional tail of
`start_session` (lines 193-198) then re-installs `n1` as the active
session and emits `SessionStarted` for it: after the sequence is drained
the store is not idle — the notification session is active. -/
theorem c3_notification_session_stays_active :
    (handle_start "n1" notifReq initState).1 =
      [OutMsg.sessionEnded "n1" "default" "" TerminationReason.nominal,
       OutMsg.sessionStarted "default" "n1" ""] ∧
    (handle_start "n1" notifReq initState).2.session.map
      (fun s => s.sessionId) = some "n1" := by decide

/-- C4 counterexample: starting a Notification session while the pending
queue holds an Action session DOES emit a `StartListening` directive — the
inlined `end_session` promotes the queued Action session, which starts ASR
listening.  (`demoState2`'s queue holds Action session `s2`.) -/
theorem c4_counterexample :
    OutMsg.asrStartListening "default" "s2" ∈
      (handle_start "n1" notifReq demoState2).1 := by decide

/-- C5 counterexample: with the reachable store `demoState2` — whose active
session S1 = `s2` is an Action session that (through the queued-then-started
defect) also sits in the pending queue — handling a `HotwordDetected` event
and then a single external end-session request makes `s2` the active session
again, refuting "S1 is never the active session in any subsequent state". -/
theorem c5_counterexample :
    demoState2.session.map (fun s => s.sessionId) = some "s2" ∧
    demoState2.session.map (fun s => s.start_session.init) =
      some (DialogueInit.action none true none false) ∧
    (runOps [Op.wakeOp "hey" "default" "u1", Op.endOp ⟨"", none⟩]
        demoState2).session.map (fun s => s.sessionId) = some "s2" := by decide

/-- C7 counterexample: continuing `stX` (active session with
`customData="x"`) with a request that supplies the customData value `""`
leaves the session's customData at `"x"` instead of the supplied value —
the Python `or` treats the supplied empty string as absent. -/
theorem c7_counterexample :
    (⟨"a", some "", none, none, false⟩ : DialogueContinueSession).customData
        = some "" ∧
    (handle_continue ⟨"a", some "", none, none, false⟩ stX).2.session.map
      (fun s => s.customData) = some "x" := by decide

/-- C8 counterexample: a continue-session event whose session id `"b"` does
not match the active session's id `"a"` is NOT discarded: `handle_continue`
never consults the request's session id, so the event mutates the active
session (customData becomes `"c"`, `sendIntentNotRecognized` becomes true)
and emits `AsrStartListening`. -/
theorem c8_counterexample :
    check_sessionId "b" stX = false ∧
    (dispatch (InboundEvent.continueSession ⟨"b", some "c", none, none, true⟩)
        stX).1 = [OutMsg.asrStartListening "default" "a"] ∧
    (dispatch (InboundEvent.continueSession ⟨"b", some "c", none, none, true⟩)
        stX).2.session =
      some ⟨"a", "default", actionReq false, "c", none, true⟩ := by decide

/-- C4 (amended): for every StartSession of a Notification-type request made
when the pending queue is empty, the drained emitted sequence contains no
`StartListening` directive and exactly one `SessionEnded` message, whose
termination reason is `NOMINAL`.  (With a non-empty queue the inlined
`end_session` promotes the queued session, whose start may emit
`StartListening` or further `SessionEnded` messages — see the
counterexample.) -/
theorem c4_notification_emissions (sessionId : String) (req : DialogueStartSession)
    (st : DialogueState) (ntext : Option String)
    (hq : st.session_queue = []) (hn : req.init = DialogueInit.notification ntext) :
    hasStartListening (handle_start sessionId req st).1 = false ∧
    endedReasons (handle_start sessionId req st).1 = [TerminationReason.nominal] := by
  unfold handle_start start_session
  rw [hq, start_core]
  dsimp only
  rw [hn]
  dsimp only
  rw [hasStartListening_start_notification, endedReasons_start_notification]
  simp [hasStartListening, endedReasons]

/-- Witness for C4 (amended): evaluated at a Notification start from the
initial store. -/
theorem c4_notification_emissions_witness :
    initState.session_queue = [] ∧
    notifReq.init = DialogueInit.notification none ∧
    hasStartListening (handle_start "n1" notifReq initState).1 = false ∧
    endedReasons (handle_start "n1" notifReq initState).1 =
      [TerminationReason.nominal] :=
  ⟨rfl, rfl, (c4_notification_emissions "n1" notifReq initState none rfl rfl).1,
    (c4_notification_emissions "n1" notifReq initState none rfl rfl).2⟩

/-- C5 (amended): given an active session S1 that does not also sit in the
pending queue, handling a `HotwordDetected` event emits exactly
`SessionEnded(ABORTED_BY_USER)` for S1, then `AsrStartListening` and
`SessionStarted` for the new wake-triggered session; S1's id is absent
from the resulting store, and — since every later operation generates
fresh session ids — S1 is never the active session in any subsequent
state. -/
theorem c5_wake_preemption (S1 : SessionInfo) (q : List SessionInfo)
    (wakewordId siteId uuid : String)
    (hq : ∀ s ∈ q, s.sessionId ≠ S1.sessionId)
    (hfresh : wakeSessionId siteId wakewordId uuid ≠ S1.sessionId) :
    (handle_wake wakewordId siteId uuid ⟨some S1, q⟩).1 =
      [OutMsg.sessionEnded S1.sessionId siteId S1.customData
         TerminationReason.abortedByUser,
       OutMsg.asrStartListening "default" (wakeSessionId siteId wakewordId uuid),
       OutMsg.sessionStarted "default" (wakeSessionId siteId wakewordId uuid)
         wakewordId] ∧
    absent S1.sessionId (handle_wake wakewordId siteId uuid ⟨some S1, q⟩).2 = true ∧
    (∀ ops, (∀ op ∈ ops, opFresh S1.sessionId op = true) →
      absent S1.sessionId
        (runOps ops (handle_wake wakewordId siteId uuid ⟨some S1, q⟩).2) = true) := by
  have hinit : (wakeSession wakewordId siteId uuid).start_session.init =
      DialogueInit.action none false none false := rfl
  have hw : handle_wake wakewordId siteId uuid ⟨some S1, q⟩ =
      (OutMsg.sessionEnded S1.sessionId siteId S1.customData
         TerminationReason.abortedByUser ::
       (start_action (wakeSession wakewordId siteId uuid) "default" none q
          none false none false).1,
       (start_action (wakeSession wakewordId siteId uuid) "default" none q
          none false none false).2) := by
    simp only [handle_wake, end_session]
    rw [start_core_action _ _ _ _ _ _ _ _ hinit]
  rw [hw]
  have habs : absent S1.sessionId
      (start_action (wakeSession wakewordId siteId uuid) "default" none q
        none false none false).2 = true := by
    simp [start_action, truthy, absent, wakeSession, List.all_eq_true]
    exact ⟨fun hcontra => hfresh hcontra, hq⟩
  refine ⟨?_, habs, ?_⟩
  · simp [start_action, truthy, say_and_wait, wakeSession]
  · intro ops hf
    exact runOps_absent S1.sessionId ops _ habs hf

/-- Witness for C5 (amended): evaluated with active session `sessX`, empty
queue and the wake input `("hey", "default", "u1")`. -/
theorem c5_wake_preemption_witness :
    (∀ s ∈ ([] : List SessionInfo), s.sessionId ≠ sessX.sessionId) ∧
    wakeSessionId "default" "hey" "u1" ≠ sessX.sessionId ∧
    absent sessX.sessionId
      (handle_wake "hey" "default" "u1" ⟨some sessX, []⟩).2 = true :=
  ⟨by simp, by decide,
    ((c5_wake_preemption sessX [] "hey" "default" "u1" (by simp) (by decide)).2).1⟩

/-- C6: on a ContinueSession with an active session, the session's
`intentFilter` is overwritten with the request's value exactly as given
(including a null value) when the current filter is non-null, and left
unchanged (null) when the current filter is null; the session keeps its
id. -/
theorem c6_intent_filter_on_continue (c : DialogueContinueSession)
    (st : DialogueState) (s : SessionInfo) (h : st.session = some s) :
    ∃ s', (handle_continue c st).2.session = some s' ∧
      s'.sessionId = s.sessionId ∧
      (s.intentFilter ≠ none → s'.intentFilter = c.intentFilter) ∧
      (s.intentFilter = none → s'.intentFilter = none) := by
  refine ⟨continue_update c s, ?_, continue_update_sessionId c s, ?_, ?_⟩
  · simp [handle_continue, h]
  · intro hf
    cases hcd : c.customData <;> cases hfs : s.intentFilter <;>
      simp [continue_update, hcd, hfs] at hf ⊢
  · intro hf
    cases hcd : c.customData <;>
      simp [continue_update, hcd, hf]

/-- Witness for C6: continuing session `sessF` (filter `["i1"]`) with a
null-filter request nulls the filter. -/
theorem c6_intent_filter_on_continue_witness :
    stF.session = some sessF ∧
    ∃ s', (handle_continue ⟨"a", none, none, none, false⟩ stF).2.session = some s' ∧
      s'.sessionId = sessF.sessionId ∧
      (sessF.intentFilter ≠ none → s'.intentFilter =
        (⟨"a", none, none, none, false⟩ : DialogueContinueSession).intentFilter) ∧
      (sessF.intentFilter = none → s'.intentFilter = none) :=
  ⟨rfl, c6_intent_filter_on_continue ⟨"a", none, none, none, false⟩ stF sessF rfl⟩

/-- C7 (amended): on a ContinueSession with an active session, supplying no
`customData` — or the empty string, which the code's `or` treats as absent —
preserves the session's previous `customData`; supplying a non-empty value
overwrites it. -/
theorem c7_custom_data_on_continue (c : DialogueContinueSession)
    (st : DialogueState) (s : SessionInfo) (h : st.session = some s) :
    ∃ s', (handle_continue c st).2.session = some s' ∧
      (c.customData = none → s'.customData = s.customData) ∧
      (c.customData = some "" → s'.customData = s.customData) ∧
      (∀ cd, c.customData = some cd → cd ≠ "" → s'.customData = cd) := by
  refine ⟨continue_update c s, ?_, ?_, ?_, ?_⟩
  · simp [handle_continue, h]
  · intro hcd
    cases hfs : s.intentFilter <;> simp [continue_update, hcd, hfs]
  · intro hcd
    cases hfs : s.intentFilter <;> simp [continue_update, hcd, hfs]
  · intro cd hcd hne
    cases hfs : s.intentFilter <;> simp [continue_update, hcd, hfs, hne]

/-- Witness for C7 (amended): continuing `sessX` (customData `"x"`) with the
value `"y"` overwrites it. -/
theorem c7_custom_data_on_continue_witness :
    stX.session = some sessX ∧
    ∃ s', (handle_continue ⟨"a", some "y", none, none, false⟩ stX).2.session =
        some s' ∧
      ((⟨"a", some "y", none, none, false⟩ : DialogueContinueSession).customData =
          none → s'.customData = sessX.customData) ∧
      ((⟨"a", some "y", none, none, false⟩ : DialogueContinueSession).customData =
          some "" → s'.customData = sessX.customData) ∧
      (∀ cd, (⟨"a", some "y", none, none, false⟩ :
          DialogueContinueSession).customData = some cd → cd ≠ "" →
        s'.customData = cd) :=
  ⟨rfl, c7_custom_data_on_continue ⟨"a", some "y", none, none, false⟩ stX sessX rfl⟩

/-- C8 (amended): a text-captured, recognition or speech-finished event
whose session id fails `_check_sessionId` (no active session, or a
mismatched id), and a continue- or end-session request arriving when there
is no active session, leave the session store unchanged and emit nothing —
the failure is swallowed, never raised to the bus.  (A continue/end request
with a MISMATCHED id while a session is active is NOT discarded — its
session id is never checked; see the counterexample.) -/
theorem c8_silent_discard (ev : InboundEvent) (st : DialogueState)
    (h : dispatchGuard ev st) : dispatch ev st = ([], st) := by
  cases ev with
  | continueSession c =>
      simp [dispatchGuard] at h
      simp [dispatch, handle_continue, h]
  | endSession e =>
      simp [dispatchGuard] at h
      simp [dispatch, handle_end, h]
  | sayFinished sid =>
      simp [dispatch]
  | textCaptured tc =>
      simp [dispatchGuard] at h
      simp [dispatch, h]
  | intentRecognized sid =>
      simp [dispatch]
  | intentNotRecognized nr =>
      simp [dispatchGuard] at h
      simp [dispatch, h]

/-- Witness for C8 (amended): a text-captured event with the non-matching
session id `"zzz"` against active session `"a"` is discarded silently. -/
theorem c8_silent_discard_witness :
    dispatchGuard (InboundEvent.textCaptured ⟨"hello", "default", "zzz"⟩) stX ∧
    dispatch (InboundEvent.textCaptured ⟨"hello", "default", "zzz"⟩) stX =
      ([], stX) :=
  ⟨show check_sessionId "zzz" stX = false by decide,
   c8_silent_discard (InboundEvent.textCaptured ⟨"hello", "default", "zzz"⟩) stX
     (show check_sessionId "zzz" stX = false by decide)⟩

/-- C9: the speech wait's configured timeout defaults to 10 seconds, and a
timed-out wait behaves exactly like an acknowledged one — the
`TimeoutError` is swallowed (only logged), so every StartSession drain
completes and is identical for both outcomes, every ContinueSession drain
is identical for both outcomes, and the subsequent `AsrStartListening`
directive is still emitted (after a continue, and after an Action start
from an idle store). -/
theorem c9_timeout_fallback (o : SpeechWait) (st : DialogueState) :
    say_finished_timeout = 10 ∧
    (∀ sessionId req, handle_start_wait o sessionId req st =
      ((handle_start sessionId req st).1, (handle_start sessionId req st).2,
       true)) ∧
    (∀ c, handle_continue_wait c o st = handle_continue c st) ∧
    (∀ c s, st.session = some s →
      OutMsg.asrStartListening s.siteId s.sessionId ∈
        (handle_continue_wait c o st).1) ∧
    (∀ sessionId req atext canQ filt sendNR,
      req.init = DialogueInit.action atext canQ filt sendNR →
      st.session = none →
      OutMsg.asrStartListening req.siteId sessionId ∈
        (handle_start_wait o sessionId req st).1) := by
  refine ⟨rfl, ?_, ?_, ?_, ?_⟩
  · intro sessionId req
    unfold handle_start_wait handle_start start_session
    exact start_core_wait_eq o st.session_queue _ req.siteId st.session
  · intro c
    rcases hs : st.session with _ | s
    · simp [handle_continue_wait, handle_continue, hs]
    · by_cases ht : truthy c.text <;> cases o <;>
        simp [handle_continue_wait, handle_continue, hs, ht, say_and_wait_outcome,
          say_and_wait, wait_for_say_finished]
  · intro c s h
    have hsite := continue_update_siteId c s
    have hsid := continue_update_sessionId c s
    by_cases ht : truthy c.text <;> cases o <;>
      simp [handle_continue_wait, h, ht, say_and_wait_outcome,
        wait_for_say_finished, hsite, hsid]
  · intro sessionId req atext canQ filt sendNR hn hs
    exact handle_start_wait_asr o sessionId req st atext canQ filt sendNR hn hs

/-- Witness for C9: with a timed-out wait, starting Action session `s1`
from the idle initial store drains exactly like the acknowledged case and
still emits `AsrStartListening`, and continuing `sessX` with text `"hi"`
drains identically and still ends with `AsrStartListening`. -/
theorem c9_timeout_fallback_witness :
    stX.session = some sessX ∧
    initState.session = none ∧
    (actionReq false).init = DialogueInit.action none false none false ∧
    handle_start_wait SpeechWait.timedOut "s1" (actionReq false) initState =
      ((handle_start "s1" (actionReq false) initState).1,
       (handle_start "s1" (actionReq false) initState).2, true) ∧
    OutMsg.asrStartListening (actionReq false).siteId "s1" ∈
      (handle_start_wait SpeechWait.timedOut "s1" (actionReq false) initState).1 ∧
    handle_continue_wait ⟨"a", none, some "hi", none, false⟩ SpeechWait.timedOut
        stX =
      handle_continue ⟨"a", none, some "hi", none, false⟩ stX ∧
    OutMsg.asrStartListening sessX.siteId sessX.sessionId ∈
      (handle_continue_wait ⟨"a", none, some "hi", none, false⟩
         SpeechWait.timedOut stX).1 :=
  ⟨rfl, rfl, rfl,
   (c9_timeout_fallback SpeechWait.timedOut initState).2.1 "s1" (actionReq false),
   (c9_timeout_fallback SpeechWait.timedOut initState).2.2.2.2 "s1"
     (actionReq false) none false none false rfl rfl,
   (c9_timeout_fallback SpeechWait.timedOut stX).2.2.1
     ⟨"a", none, some "hi", none, false⟩,
   (c9_timeout_fallback SpeechWait.timedOut stX).2.2.2.1
     ⟨"a", none, some "hi", none, false⟩ sessX rfl⟩

/-- C10: an external end-session request that finds an active session emits
`SessionEnded` for it with reason `NOMINAL` (first message of the drain),
every `SessionEnded` in the drain — including those of promoted queued
notification sessions — carries reason `NOMINAL`, and the drain is entirely
independent of the request's content: an external requester can never cause
another termination reason. -/
theorem c10_external_end_always_nominal (e : DialogueEndSession)
    (st : DialogueState) (s : SessionInfo) (h : st.session = some s) :
    (handle_end e st).1.head? =
      some (OutMsg.sessionEnded s.sessionId s.siteId s.customData
        TerminationReason.nominal) ∧
    (∀ r, r ∈ endedReasons (handle_end e st).1 → r = TerminationReason.nominal) ∧
    (∀ e' : DialogueEndSession, handle_end e' st = handle_end e st) := by
  refine ⟨?_, ?_, fun e' => rfl⟩
  · cases hq : st.session_queue <;> simp [handle_end, h, end_session, hq]
  · intro r hr
    cases hq : st.session_queue with
    | nil => simp [handle_end, h, end_session, hq, endedReasons] at hr; exact hr
    | cons hd tl =>
        simp [handle_end, h, end_session, hq, endedReasons] at hr
        rcases hr with h1 | h1
        · exact h1
        · exact start_core_endedReasons_nominal tl hd "default" none r
            (by simpa [endedReasons] using h1)

/-- Witness for C10: an end request against active session `sessX` opens
with `SessionEnded(NOMINAL)` for it. -/
theorem c10_external_end_always_nominal_witness :
    stX.session = some sessX ∧
    (handle_end ⟨"", none⟩ stX).1.head? =
      some (OutMsg.sessionEnded sessX.sessionId sessX.siteId sessX.customData
        TerminationReason.nominal) :=
  ⟨rfl, (c10_external_end_always_nominal ⟨"", none⟩ stX sessX rfl).1⟩

end RhasspyDialogue
